import Mathlib

/-!
Shallow embedding of `trinity/plugins/builtin/light_peer_chain_bridge/
light_peer_chain_bridge.py`: the request/response event catalog, the
provider-side relay (`LightPeerChainEventBusHandler`) and the consumer-side
facade (`EventBusLightPeerChain`), together with theorems checking the
natural-language specification of the bridge against this embedding.

Chain-data payloads (headers, bodies, receipts, accounts, byte blobs) are
opaque to the bridge, so they are embedded as wrapper structures around `Nat`
(respectively lists); exceptions are embedded as a wrapper around `String`.
-/

/-- Opaque 32-byte block hash (`eth_typing.Hash32`). -/
structure Hash32 where
  data : Nat
deriving DecidableEq, Repr

/-- Opaque account address (`eth_typing.Address`). -/
structure Address where
  data : Nat
deriving DecidableEq, Repr

/-- Opaque block header payload (`eth.rlp.headers.BlockHeader`). -/
structure BlockHeader where
  data : Nat
deriving DecidableEq, Repr

/-- Opaque block body payload (`trinity.rlp.block_body.BlockBody`). -/
structure BlockBody where
  data : Nat
deriving DecidableEq, Repr

/-- Opaque receipt payload (`eth.rlp.receipts.Receipt`). -/
structure Receipt where
  data : Nat
deriving DecidableEq, Repr

/-- Opaque account record payload (`eth.rlp.accounts.Account`). -/
structure Account where
  data : Nat
deriving DecidableEq, Repr

/-- Contract byte code payload (Python `bytes`). -/
abbrev Bytez := List Nat

/-- A Python exception value, as captured and transported by the bridge. -/
structure Exn where
  msg : String
deriving DecidableEq, Repr

/-- Opaque addressing token (`lahja` broadcast config): identifies where a
correlated response must be delivered.  The bridge never inspects it. -/
structure BroadcastConfig where
  data : Nat
deriving DecidableEq, Repr

/-- Modelled from the spec: `trinity.constants.TO_NETWORKING_BROADCAST_CONFIG`
(not under `src/`) is the single well-known, fixed address configuration for
the provider side, shared by all query kinds; its contents are opaque here. -/
def TO_NETWORKING_BROADCAST_CONFIG : BroadcastConfig := ⟨0⟩

/-! ## Response catalog

Each Python response dataclass has a payload field and an `error` field, both
defaulting to `None`; here both are `Option`-valued. -/

/-- `BlockHeaderResponse(block_header, error=None)`. -/
structure BlockHeaderResponse where
  block_header : Option BlockHeader
  error : Option Exn
deriving DecidableEq, Repr

/-- `BlockBodyResponse(block_body, error=None)`. -/
structure BlockBodyResponse where
  block_body : Option BlockBody
  error : Option Exn
deriving DecidableEq, Repr

/-- `ReceiptsResponse(receipts, error=None)`. -/
structure ReceiptsResponse where
  receipts : Option (List Receipt)
  error : Option Exn
deriving DecidableEq, Repr

/-- `AccountResponse(account, error=None)`. -/
structure AccountResponse where
  account : Option Account
  error : Option Exn
deriving DecidableEq, Repr

/-- `BytesResponse(bytez, error=None)`. -/
structure BytesResponse where
  bytez : Option Bytez
  error : Option Exn
deriving DecidableEq, Repr

/-- The abstract base class `BaseLightPeerChainResponse`: everything the
generic facade helper `_pass_or_raise` uses is the `error` attribute. -/
class BaseLightPeerChainResponseClass (α : Type) where
  error : α → Option Exn

instance instRespClassHeader : BaseLightPeerChainResponseClass BlockHeaderResponse :=
  ⟨BlockHeaderResponse.error⟩
instance instRespClassBody : BaseLightPeerChainResponseClass BlockBodyResponse :=
  ⟨BlockBodyResponse.error⟩
instance instRespClassReceipts : BaseLightPeerChainResponseClass ReceiptsResponse :=
  ⟨ReceiptsResponse.error⟩
instance instRespClassAccount : BaseLightPeerChainResponseClass AccountResponse :=
  ⟨AccountResponse.error⟩
instance instRespClassBytes : BaseLightPeerChainResponseClass BytesResponse :=
  ⟨BytesResponse.error⟩

/-! ## Request catalog -/

/-- `GetBlockHeaderByHashRequest(block_hash)`. -/
structure GetBlockHeaderByHashRequest where
  block_hash : Hash32
deriving DecidableEq, Repr

/-- `GetBlockBodyByHashRequest(block_hash)`. -/
structure GetBlockBodyByHashRequest where
  block_hash : Hash32
deriving DecidableEq, Repr

/-- `GetReceiptsRequest(block_hash)`. -/
structure GetReceiptsRequest where
  block_hash : Hash32
deriving DecidableEq, Repr

/-- `GetAccountRequest(block_hash, address)`. -/
structure GetAccountRequest where
  block_hash : Hash32
  address : Address
deriving DecidableEq, Repr

/-- `GetContractCodeRequest(block_hash, address)`. -/
structure GetContractCodeRequest where
  block_hash : Hash32
  address : Address
deriving DecidableEq, Repr

/-- Name tag for the five response classes, used to state properties about the
static request-type to response-type binding. -/
inductive ResponseType
  | blockHeaderResponse
  | blockBodyResponse
  | receiptsResponse
  | accountResponse
  | bytesResponse
deriving DecidableEq, Repr, Fintype

/-- The five query kinds the bridge proxies. -/
inductive QueryKind
  | getBlockHeaderByHash
  | getBlockBodyByHash
  | getReceipts
  | getAccount
  | getContractCode
deriving DecidableEq, Repr, Fintype

/-- `GetBlockHeaderByHashRequest.expected_response_type` is a `@staticmethod`
returning the `BlockHeaderResponse` class; embedded as a function on the
instance that ignores its field values. -/
def GetBlockHeaderByHashRequest.expected_response_type
    (_ : GetBlockHeaderByHashRequest) : ResponseType :=
  ResponseType.blockHeaderResponse

/-- `GetBlockBodyByHashRequest.expected_response_type`. -/
def GetBlockBodyByHashRequest.expected_response_type
    (_ : GetBlockBodyByHashRequest) : ResponseType :=
  ResponseType.blockBodyResponse

/-- `GetReceiptsRequest.expected_response_type`. -/
def GetReceiptsRequest.expected_response_type
    (_ : GetReceiptsRequest) : ResponseType :=
  ResponseType.receiptsResponse

/-- `GetAccountRequest.expected_response_type`. -/
def GetAccountRequest.expected_response_type
    (_ : GetAccountRequest) : ResponseType :=
  ResponseType.accountResponse

/-- `GetContractCodeRequest.expected_response_type`. -/
def GetContractCodeRequest.expected_response_type
    (_ : GetContractCodeRequest) : ResponseType :=
  ResponseType.bytesResponse

/-- The response type statically bound to each query kind, read off from the
`expected_response_type` static methods (arbitrary instances, since the
methods are static and ignore field values). -/
def QueryKind.boundResponseType : QueryKind → ResponseType
  | .getBlockHeaderByHash => GetBlockHeaderByHashRequest.expected_response_type ⟨⟨0⟩⟩
  | .getBlockBodyByHash => GetBlockBodyByHashRequest.expected_response_type ⟨⟨0⟩⟩
  | .getReceipts => GetReceiptsRequest.expected_response_type ⟨⟨0⟩⟩
  | .getAccount => GetAccountRequest.expected_response_type ⟨⟨0⟩, ⟨0⟩⟩
  | .getContractCode => GetContractCodeRequest.expected_response_type ⟨⟨0⟩, ⟨0⟩⟩

/-! ## The chain-data provider and the error-wrapping helper -/

/-- The chain-data provider interface `BaseLightPeerChain` that the relay
delegates to: one suspending operation per query kind, each either returning
its success payload or raising an exception (`Except`). -/
structure LightPeerChain where
  coro_get_block_header_by_hash : Hash32 → Except Exn BlockHeader
  coro_get_block_body_by_hash : Hash32 → Except Exn BlockBody
  coro_get_receipts : Hash32 → Except Exn (List Receipt)
  coro_get_account : Hash32 → Address → Except Exn Account
  coro_get_contract_code : Hash32 → Address → Except Exn Bytez

/-- Modelled from the spec: `trinity._utils.async_errors.await_and_wrap_errors`
(not under `src/`) awaits the provider coroutine and returns a
`(val, error)` pair — on success `(value, None)`, and on a raised failure
`(None, exception)`: the failure is captured as data, never propagated. -/
def await_and_wrap_errors {α : Type} (coro : Except Exn α) : Option α × Option Exn :=
  match coro with
  | .ok v => (some v, none)
  | .error e => (none, some e)

/-! ## Provider-side relay (`LightPeerChainEventBusHandler`)

Each handler body is embedded per received event: the relay awaits the
delegated provider operation through `await_and_wrap_errors` and constructs
`event.expected_response_type()(val, error)`; the loop over the event-bus
stream is embedded as a map over the finite list of delivered events, each
paired with its `broadcast_config()` addressing token (attached by the bus
layer, opaque here). -/

/-- Any of the five response events, as handed to `event_bus.broadcast` (the
bus accepts any event type; the relay picks the concrete response class via
`event.expected_response_type()`). -/
inductive AnyResponse
  | blockHeader (r : BlockHeaderResponse)
  | blockBody (r : BlockBodyResponse)
  | receipts (r : ReceiptsResponse)
  | account (r : AccountResponse)
  | bytes (r : BytesResponse)
deriving DecidableEq, Repr

/-- The response class an `AnyResponse` value is an instance of. -/
def AnyResponse.typeTag : AnyResponse → ResponseType
  | .blockHeader _ => .blockHeaderResponse
  | .blockBody _ => .blockBodyResponse
  | .receipts _ => .receiptsResponse
  | .account _ => .accountResponse
  | .bytes _ => .bytesResponse

namespace LightPeerChainEventBusHandler

/-- The response value the relay builds for one header request:
`event.expected_response_type()(val, error)` where
`val, error = await await_and_wrap_errors(chain.coro_get_block_header_by_hash(event.block_hash))`. -/
def header_response (chain : LightPeerChain)
    (event : GetBlockHeaderByHashRequest) : BlockHeaderResponse :=
  let p := await_and_wrap_errors (chain.coro_get_block_header_by_hash event.block_hash)
  { block_header := p.1, error := p.2 }

/-- The response value the relay builds for one body request. -/
def body_response (chain : LightPeerChain)
    (event : GetBlockBodyByHashRequest) : BlockBodyResponse :=
  let p := await_and_wrap_errors (chain.coro_get_block_body_by_hash event.block_hash)
  { block_body := p.1, error := p.2 }

/-- The response value the relay builds for one receipts request. -/
def receipts_response (chain : LightPeerChain)
    (event : GetReceiptsRequest) : ReceiptsResponse :=
  let p := await_and_wrap_errors (chain.coro_get_receipts event.block_hash)
  { receipts := p.1, error := p.2 }

/-- The response value the relay builds for one account request. -/
def account_response (chain : LightPeerChain)
    (event : GetAccountRequest) : AccountResponse :=
  let p := await_and_wrap_errors (chain.coro_get_account event.block_hash event.address)
  { account := p.1, error := p.2 }

/-- The response value the relay builds for one contract-code request. -/
def bytes_response (chain : LightPeerChain)
    (event : GetContractCodeRequest) : BytesResponse :=
  let p := await_and_wrap_errors (chain.coro_get_contract_code event.block_hash event.address)
  { bytez := p.1, error := p.2 }

/-- One iteration of `handle_get_blockheader_by_hash_requests`: delegate to
the chain, wrap the outcome, and broadcast the response addressed with
`event.broadcast_config()` (the second component is the addressing token
passed to `event_bus.broadcast`). -/
def handle_get_blockheader_by_hash_one (chain : LightPeerChain)
    (event : GetBlockHeaderByHashRequest) (cfg : BroadcastConfig) :
    AnyResponse × BroadcastConfig :=
  (AnyResponse.blockHeader (header_response chain event), cfg)

/-- One iteration of `handle_get_blockbody_by_hash_requests`. -/
def handle_get_blockbody_by_hash_one (chain : LightPeerChain)
    (event : GetBlockBodyByHashRequest) (cfg : BroadcastConfig) :
    AnyResponse × BroadcastConfig :=
  (AnyResponse.blockBody (body_response chain event), cfg)

/-- One iteration of `handle_get_receipts_by_hash_requests`. -/
def handle_get_receipts_by_hash_one (chain : LightPeerChain)
    (event : GetReceiptsRequest) (cfg : BroadcastConfig) :
    AnyResponse × BroadcastConfig :=
  (AnyResponse.receipts (receipts_response chain event), cfg)

/-- One iteration of `handle_get_account_requests`. -/
def handle_get_account_one (chain : LightPeerChain)
    (event : GetAccountRequest) (cfg : BroadcastConfig) :
    AnyResponse × BroadcastConfig :=
  (AnyResponse.account (account_response chain event), cfg)

/-- One iteration of `handle_get_contract_code_requests`. -/
def handle_get_contract_code_one (chain : LightPeerChain)
    (event : GetContractCodeRequest) (cfg : BroadcastConfig) :
    AnyResponse × BroadcastConfig :=
  (AnyResponse.bytes (bytes_response chain event), cfg)

/-- The `handle_get_blockheader_by_hash_requests` loop, run over the finite
list of events the bus stream delivers before shutdown: the published
responses, in order. -/
def handle_get_blockheader_by_hash_requests (chain : LightPeerChain)
    (events : List (GetBlockHeaderByHashRequest × BroadcastConfig)) :
    List (AnyResponse × BroadcastConfig) :=
  events.map fun p => handle_get_blockheader_by_hash_one chain p.1 p.2

/-- The `handle_get_blockbody_by_hash_requests` loop. -/
def handle_get_blockbody_by_hash_requests (chain : LightPeerChain)
    (events : List (GetBlockBodyByHashRequest × BroadcastConfig)) :
    List (AnyResponse × BroadcastConfig) :=
  events.map fun p => handle_get_blockbody_by_hash_one chain p.1 p.2

/-- The `handle_get_receipts_by_hash_requests` loop. -/
def handle_get_receipts_by_hash_requests (chain : LightPeerChain)
    (events : List (GetReceiptsRequest × BroadcastConfig)) :
    List (AnyResponse × BroadcastConfig) :=
  events.map fun p => handle_get_receipts_by_hash_one chain p.1 p.2

/-- The `handle_get_account_requests` loop. -/
def handle_get_account_requests (chain : LightPeerChain)
    (events : List (GetAccountRequest × BroadcastConfig)) :
    List (AnyResponse × BroadcastConfig) :=
  events.map fun p => handle_get_account_one chain p.1 p.2

/-- The `handle_get_contract_code_requests` loop. -/
def handle_get_contract_code_requests (chain : LightPeerChain)
    (events : List (GetContractCodeRequest × BroadcastConfig)) :
    List (AnyResponse × BroadcastConfig) :=
  events.map fun p => handle_get_contract_code_one chain p.1 p.2

end LightPeerChainEventBusHandler

/-! ## Relay lifecycle (`LightPeerChainEventBusHandler._run`) -/

/-- The five long-running daemon tasks `_run` registers, one per handler. -/
inductive DaemonTask
  | handle_get_blockheader_by_hash_requests
  | handle_get_blockbody_by_hash_requests
  | handle_get_receipts_by_hash_requests
  | handle_get_account_requests
  | handle_get_contract_code_requests
deriving DecidableEq, Repr, Fintype

/-- The query kind a daemon task serves. -/
def DaemonTask.kind : DaemonTask → QueryKind
  | .handle_get_blockheader_by_hash_requests => .getBlockHeaderByHash
  | .handle_get_blockbody_by_hash_requests => .getBlockBodyByHash
  | .handle_get_receipts_by_hash_requests => .getReceipts
  | .handle_get_account_requests => .getAccount
  | .handle_get_contract_code_requests => .getContractCode

namespace LightPeerChainEventBusHandler

/-- `LightPeerChainEventBusHandler._run`: the daemon tasks it starts, in
source order — one `run_daemon_task(...)` call per handler. -/
def runTasks : List DaemonTask :=
  [ DaemonTask.handle_get_blockheader_by_hash_requests,
    DaemonTask.handle_get_blockbody_by_hash_requests,
    DaemonTask.handle_get_receipts_by_hash_requests,
    DaemonTask.handle_get_account_requests,
    DaemonTask.handle_get_contract_code_requests ]

/-- Modelled from the spec: `p2p.service.BaseService.run_daemon_task` (not
under `src/`) registers a task against the service's shared cancel token;
stopping the service cancels the token and stops every registered daemon
task, so after a stop no started task is still running. -/
def runningTasksAfter (started : List DaemonTask) (stopped : Bool) :
    List DaemonTask :=
  if stopped then [] else started

end LightPeerChainEventBusHandler

/-! ## Consumer-side facade (`EventBusLightPeerChain`)

Each facade coroutine constructs the bound request value and performs exactly
one `event_bus.request(event, TO_NETWORKING_BROADCAST_CONFIG)` call.  The bus
correlation primitive is a parameter (it is external); the facade is embedded
writer-style, returning both its result and the list of correlated requests
it issued on the bus, so that "exactly one round trip per call" is a statable
property. -/

/-- A correlated request as submitted to `event_bus.request`: the request
event together with the target address configuration. -/
inductive SentRequest
  | header (event : GetBlockHeaderByHashRequest) (target : BroadcastConfig)
  | body (event : GetBlockBodyByHashRequest) (target : BroadcastConfig)
  | receipts (event : GetReceiptsRequest) (target : BroadcastConfig)
  | account (event : GetAccountRequest) (target : BroadcastConfig)
  | contractCode (event : GetContractCodeRequest) (target : BroadcastConfig)
deriving DecidableEq, Repr

/-- The bus's correlated request/response primitive, one typed view per query
kind: given the request event and the target configuration, it resolves with
the one correlated response of the statically expected type.  External to the
bridge, hence a parameter of the facade. -/
structure EventBusRequestPrimitive where
  header : GetBlockHeaderByHashRequest → BroadcastConfig → BlockHeaderResponse
  body : GetBlockBodyByHashRequest → BroadcastConfig → BlockBodyResponse
  receipts : GetReceiptsRequest → BroadcastConfig → ReceiptsResponse
  account : GetAccountRequest → BroadcastConfig → AccountResponse
  contractCode : GetContractCodeRequest → BroadcastConfig → BytesResponse

namespace EventBusLightPeerChain

/-- `EventBusLightPeerChain._pass_or_raise`: raise `response.error` when it is
not `None` (embedded as `Except.error`), otherwise return the response. -/
def _pass_or_raise {α : Type} [BaseLightPeerChainResponseClass α]
    (response : α) : Except Exn α :=
  match BaseLightPeerChainResponseClass.error response with
  | some e => Except.error e
  | none => Except.ok response

/-- `EventBusLightPeerChain.coro_get_block_header_by_hash`: build the request,
issue one correlated bus request at `TO_NETWORKING_BROADCAST_CONFIG`, unwrap
with `_pass_or_raise` and extract `.block_header`.  Also returns the trace of
correlated requests issued. -/
def coro_get_block_header_by_hash (bus : EventBusRequestPrimitive)
    (block_hash : Hash32) :
    Except Exn (Option BlockHeader) × List SentRequest :=
  let event := GetBlockHeaderByHashRequest.mk block_hash
  let response := bus.header event TO_NETWORKING_BROADCAST_CONFIG
  ((_pass_or_raise response).map (fun r => r.block_header),
    [SentRequest.header event TO_NETWORKING_BROADCAST_CONFIG])

/-- `EventBusLightPeerChain.coro_get_block_body_by_hash`. -/
def coro_get_block_body_by_hash (bus : EventBusRequestPrimitive)
    (block_hash : Hash32) :
    Except Exn (Option BlockBody) × List SentRequest :=
  let event := GetBlockBodyByHashRequest.mk block_hash
  let response := bus.body event TO_NETWORKING_BROADCAST_CONFIG
  ((_pass_or_raise response).map (fun r => r.block_body),
    [SentRequest.body event TO_NETWORKING_BROADCAST_CONFIG])

/-- `EventBusLightPeerChain.coro_get_receipts`. -/
def coro_get_receipts (bus : EventBusRequestPrimitive)
    (block_hash : Hash32) :
    Except Exn (Option (List Receipt)) × List SentRequest :=
  let event := GetReceiptsRequest.mk block_hash
  let response := bus.receipts event TO_NETWORKING_BROADCAST_CONFIG
  ((_pass_or_raise response).map (fun r => r.receipts),
    [SentRequest.receipts event TO_NETWORKING_BROADCAST_CONFIG])

/-- `EventBusLightPeerChain.coro_get_account`. -/
def coro_get_account (bus : EventBusRequestPrimitive)
    (block_hash : Hash32) (address : Address) :
    Except Exn (Option Account) × List SentRequest :=
  let event := GetAccountRequest.mk block_hash address
  let response := bus.account event TO_NETWORKING_BROADCAST_CONFIG
  ((_pass_or_raise response).map (fun r => r.account),
    [SentRequest.account event TO_NETWORKING_BROADCAST_CONFIG])

/-- `EventBusLightPeerChain.coro_get_contract_code`. -/
def coro_get_contract_code (bus : EventBusRequestPrimitive)
    (block_hash : Hash32) (address : Address) :
    Except Exn (Option Bytez) × List SentRequest :=
  let event := GetContractCodeRequest.mk block_hash address
  let response := bus.contractCode event TO_NETWORKING_BROADCAST_CONFIG
  ((_pass_or_raise response).map (fun r => r.bytez),
    [SentRequest.contractCode event TO_NETWORKING_BROADCAST_CONFIG])

end EventBusLightPeerChain

/-! ## End-to-end composition

A bus whose correlated request primitive is answered by the relay: delivering
the request to the matching relay handler and correlating back the response
it broadcasts.  Composing the facade with this bus gives the full round trip
Facade → Request → Relay → provider → Response → Facade. -/

/-- The relay-backed bus: each correlated request resolves with the response
the matching relay handler builds for that event. -/
def relayBus (chain : LightPeerChain) : EventBusRequestPrimitive where
  header := fun event _ => LightPeerChainEventBusHandler.header_response chain event
  body := fun event _ => LightPeerChainEventBusHandler.body_response chain event
  receipts := fun event _ => LightPeerChainEventBusHandler.receipts_response chain event
  account := fun event _ => LightPeerChainEventBusHandler.account_response chain event
  contractCode := fun event _ => LightPeerChainEventBusHandler.bytes_response chain event

/-- Full round trip for `GetBlockHeaderByHash`: the facade call against the
relay-backed bus. -/
def roundTripHeader (chain : LightPeerChain) (block_hash : Hash32) :
    Except Exn (Option BlockHeader) :=
  (EventBusLightPeerChain.coro_get_block_header_by_hash (relayBus chain) block_hash).1

/-- Full round trip for `GetBlockBodyByHash`. -/
def roundTripBody (chain : LightPeerChain) (block_hash : Hash32) :
    Except Exn (Option BlockBody) :=
  (EventBusLightPeerChain.coro_get_block_body_by_hash (relayBus chain) block_hash).1

/-- Full round trip for `GetReceipts`. -/
def roundTripReceipts (chain : LightPeerChain) (block_hash : Hash32) :
    Except Exn (Option (List Receipt)) :=
  (EventBusLightPeerChain.coro_get_receipts (relayBus chain) block_hash).1

/-- Full round trip for `GetAccount`. -/
def roundTripAccount (chain : LightPeerChain) (block_hash : Hash32)
    (address : Address) : Except Exn (Option Account) :=
  (EventBusLightPeerChain.coro_get_account (relayBus chain) block_hash address).1

/-- Full round trip for `GetContractCode`. -/
def roundTripContractCode (chain : LightPeerChain) (block_hash : Hash32)
    (address : Address) : Except Exn (Option Bytez) :=
  (EventBusLightPeerChain.coro_get_contract_code (relayBus chain) block_hash address).1

/-! ## Cooperative scheduling model for the relay's daemon tasks

Modelled from the spec: the relay runs one cooperative task per query kind on
a single-threaded event loop (`run_daemon_task` / asyncio, not under `src/`).
Each task repeatedly consumes the next request of its kind and awaits the
delegated provider operation; a provider operation may suspend indefinitely.
The scheduler interleaves the five tasks in an arbitrary order; a scheduled
step of a task makes progress exactly when its provider call resolves.  The
per-request response values are the source-derived relay responses. -/

/-- The pending/published queues of one query kind's daemon task. -/
structure KindQueue (ρ σ : Type) where
  pending : List ρ
  done : List σ
deriving DecidableEq, Repr

/-- One scheduled step of a single kind's consume-dispatch-respond task:
if a request is pending and the provider call resolves (`some`), the task
publishes the response and moves on; if the provider call never resolves
(`none`), the task stays suspended and its state is unchanged. -/
def queueStep {ρ σ : Type} (provide : ρ → Option σ) (q : KindQueue ρ σ) :
    KindQueue ρ σ :=
  match q.pending with
  | [] => q
  | r :: rest =>
    match provide r with
    | none => q
    | some resp => ⟨rest, q.done ++ [resp]⟩

/-- Modelled from the spec: a provider whose operations may suspend
indefinitely — `none` means the call never resolves, `some` means it resolves
with the given outcome (success or raised failure). -/
structure PartialLightPeerChain where
  coro_get_block_header_by_hash : Hash32 → Option (Except Exn BlockHeader)
  coro_get_block_body_by_hash : Hash32 → Option (Except Exn BlockBody)
  coro_get_receipts : Hash32 → Option (Except Exn (List Receipt))
  coro_get_account : Hash32 → Address → Option (Except Exn Account)
  coro_get_contract_code : Hash32 → Address → Option (Except Exn Bytez)

namespace RelaySched

/-- Resolving provider call for one pending header request: the published
response pairs the relay's wrapped outcome with the request's addressing
token, exactly as `handle_get_blockheader_by_hash_requests` does. -/
def headerProvide (chain : PartialLightPeerChain) :
    GetBlockHeaderByHashRequest × BroadcastConfig →
    Option (BlockHeaderResponse × BroadcastConfig) :=
  fun p =>
    (chain.coro_get_block_header_by_hash p.1.block_hash).map fun r =>
      let q := await_and_wrap_errors r
      ({ block_header := q.1, error := q.2 }, p.2)

/-- Resolving provider call for one pending body request. -/
def bodyProvide (chain : PartialLightPeerChain) :
    GetBlockBodyByHashRequest × BroadcastConfig →
    Option (BlockBodyResponse × BroadcastConfig) :=
  fun p =>
    (chain.coro_get_block_body_by_hash p.1.block_hash).map fun r =>
      let q := await_and_wrap_errors r
      ({ block_body := q.1, error := q.2 }, p.2)

/-- Resolving provider call for one pending receipts request. -/
def receiptsProvide (chain : PartialLightPeerChain) :
    GetReceiptsRequest × BroadcastConfig →
    Option (ReceiptsResponse × BroadcastConfig) :=
  fun p =>
    (chain.coro_get_receipts p.1.block_hash).map fun r =>
      let q := await_and_wrap_errors r
      ({ receipts := q.1, error := q.2 }, p.2)

/-- Resolving provider call for one pending account request. -/
def accountProvide (chain : PartialLightPeerChain) :
    GetAccountRequest × BroadcastConfig →
    Option (AccountResponse × BroadcastConfig) :=
  fun p =>
    (chain.coro_get_account p.1.block_hash p.1.address).map fun r =>
      let q := await_and_wrap_errors r
      ({ account := q.1, error := q.2 }, p.2)

/-- Resolving provider call for one pending contract-code request. -/
def codeProvide (chain : PartialLightPeerChain) :
    GetContractCodeRequest × BroadcastConfig →
    Option (BytesResponse × BroadcastConfig) :=
  fun p =>
    (chain.coro_get_contract_code p.1.block_hash p.1.address).map fun r =>
      let q := await_and_wrap_errors r
      ({ bytez := q.1, error := q.2 }, p.2)

/-- Joint state of the five daemon tasks: one queue per query kind. -/
structure RelayState where
  header : KindQueue (GetBlockHeaderByHashRequest × BroadcastConfig)
      (BlockHeaderResponse × BroadcastConfig)
  body : KindQueue (GetBlockBodyByHashRequest × BroadcastConfig)
      (BlockBodyResponse × BroadcastConfig)
  receipts : KindQueue (GetReceiptsRequest × BroadcastConfig)
      (ReceiptsResponse × BroadcastConfig)
  account : KindQueue (GetAccountRequest × BroadcastConfig)
      (AccountResponse × BroadcastConfig)
  code : KindQueue (GetContractCodeRequest × BroadcastConfig)
      (BytesResponse × BroadcastConfig)
deriving DecidableEq, Repr

/-- One scheduler step: run the chosen daemon task once; the states of the
four other tasks are untouched. -/
def step (chain : PartialLightPeerChain) (s : RelayState) :
    DaemonTask → RelayState
  | .handle_get_blockheader_by_hash_requests =>
    { s with header := queueStep (headerProvide chain) s.header }
  | .handle_get_blockbody_by_hash_requests =>
    { s with body := queueStep (bodyProvide chain) s.body }
  | .handle_get_receipts_by_hash_requests =>
    { s with receipts := queueStep (receiptsProvide chain) s.receipts }
  | .handle_get_account_requests =>
    { s with account := queueStep (accountProvide chain) s.account }
  | .handle_get_contract_code_requests =>
    { s with code := queueStep (codeProvide chain) s.code }

/-- Run a finite schedule of task activations. -/
def run (chain : PartialLightPeerChain) (sched : List DaemonTask)
    (s : RelayState) : RelayState :=
  sched.foldl (step chain) s

end RelaySched

/-! ## Concrete providers and buses used in witnesses -/

/-- A provider that succeeds on every operation, with payloads derived from
the inputs. -/
def sampleChain : LightPeerChain where
  coro_get_block_header_by_hash := fun h => Except.ok ⟨h.data + 1⟩
  coro_get_block_body_by_hash := fun h => Except.ok ⟨h.data + 2⟩
  coro_get_receipts := fun h => Except.ok [⟨h.data + 3⟩]
  coro_get_account := fun h a => Except.ok ⟨h.data + a.data⟩
  coro_get_contract_code := fun h a => Except.ok [h.data, a.data]

/-- A provider that raises the given exception on every operation. -/
def failChain (e : Exn) : LightPeerChain where
  coro_get_block_header_by_hash := fun _ => Except.error e
  coro_get_block_body_by_hash := fun _ => Except.error e
  coro_get_receipts := fun _ => Except.error e
  coro_get_account := fun _ _ => Except.error e
  coro_get_contract_code := fun _ _ => Except.error e

/-- A bus whose correlated responses carry neither payload nor error
(every field left at its `None` default). -/
def emptyResponseBus : EventBusRequestPrimitive where
  header := fun _ _ => ⟨none, none⟩
  body := fun _ _ => ⟨none, none⟩
  receipts := fun _ _ => ⟨none, none⟩
  account := fun _ _ => ⟨none, none⟩
  contractCode := fun _ _ => ⟨none, none⟩

/-- A partial provider whose `GetAccount` operation never resolves while
every other operation resolves immediately. -/
def accountBlockedChain : PartialLightPeerChain where
  coro_get_block_header_by_hash := fun h => some (Except.ok ⟨h.data + 1⟩)
  coro_get_block_body_by_hash := fun h => some (Except.ok ⟨h.data + 2⟩)
  coro_get_receipts := fun h => some (Except.ok [⟨h.data + 3⟩])
  coro_get_account := fun _ _ => none
  coro_get_contract_code := fun h a => some (Except.ok [h.data, a.data])

/-- A partial provider that resolves every operation, agreeing with
`accountBlockedChain` on the `GetBlockHeaderByHash` operation. -/
def allResolvingChain : PartialLightPeerChain where
  coro_get_block_header_by_hash := fun h => some (Except.ok ⟨h.data + 1⟩)
  coro_get_block_body_by_hash := fun h => some (Except.ok ⟨h.data + 2⟩)
  coro_get_receipts := fun h => some (Except.ok [⟨h.data + 3⟩])
  coro_get_account := fun h a => some (Except.ok ⟨h.data + a.data⟩)
  coro_get_contract_code := fun h a => some (Except.ok [h.data, a.data])

/-- A relay task state with one pending header request and one pending
account request, nothing yet published. -/
def sampleRelayState : RelaySched.RelayState where
  header := ⟨[(⟨⟨5⟩⟩, ⟨7⟩)], []⟩
  body := ⟨[], []⟩
  receipts := ⟨[], []⟩
  account := ⟨[(⟨⟨5⟩, ⟨9⟩⟩, ⟨8⟩)], []⟩
  code := ⟨[], []⟩

/-! ## Helper lemmas -/

namespace RelaySched

theorem queueStep_of_blocked {ρ σ : Type} (provide : ρ → Option σ)
    (h : ∀ r, provide r = none) (q : KindQueue ρ σ) : queueStep provide q = q := by
  cases hq : q.pending with
  | nil => simp [queueStep, hq]
  | cons r rest => simp [queueStep, hq, h r]

theorem queueStep_iterate_complete {ρ σ : Type} (provide : ρ → Option σ)
    (htotal : ∀ r, (provide r).isSome) :
    ∀ (n : Nat) (q : KindQueue ρ σ), q.pending.length ≤ n →
      ((queueStep provide)^[n] q).pending = [] ∧
      ((queueStep provide)^[n] q).done.length = q.done.length + q.pending.length := by
  intro n
  induction n with
  | zero =>
    intro q hq
    have hnil : q.pending = [] := List.length_eq_zero.mp (Nat.le_zero.mp hq)
    simp [hnil]
  | succ n ih =>
    intro q hq
    rw [Function.iterate_succ_apply]
    cases hp : q.pending with
    | nil =>
      have hstep : queueStep provide q = q := by simp [queueStep, hp]
      rw [hstep]
      have h0 : q.pending.length ≤ n := by simp [hp]
      have hq0 := ih q h0
      rw [hp] at hq0
      exact hq0
    | cons r rest =>
      obtain ⟨resp, hresp⟩ := Option.isSome_iff_exists.mp (htotal r)
      have hstep : queueStep provide q = ⟨rest, q.done ++ [resp]⟩ := by
        simp [queueStep, hp, hresp]
      rw [hstep]
      have hlen : rest.length ≤ n := by
        rw [hp] at hq
        simp at hq
        omega
      obtain ⟨h1, h2⟩ := ih ⟨rest, q.done ++ [resp]⟩ hlen
      refine ⟨h1, ?_⟩
      rw [h2]
      simp [hp]
      omega

theorem run_header_eq (chain : PartialLightPeerChain) (sched : List DaemonTask) :
    ∀ s : RelayState, (run chain sched s).header =
      (queueStep (headerProvide chain))^[sched.count
        DaemonTask.handle_get_blockheader_by_hash_requests] s.header := by
  induction sched with
  | nil => intro s; rfl
  | cons t ts ih =>
    intro s
    show (run chain ts (step chain s t)).header = _
    rw [ih]
    cases t <;> simp [step, List.count_cons, Function.iterate_succ_apply]

theorem run_body_eq (chain : PartialLightPeerChain) (sched : List DaemonTask) :
    ∀ s : RelayState, (run chain sched s).body =
      (queueStep (bodyProvide chain))^[sched.count
        DaemonTask.handle_get_blockbody_by_hash_requests] s.body := by
  induction sched with
  | nil => intro s; rfl
  | cons t ts ih =>
    intro s
    show (run chain ts (step chain s t)).body = _
    rw [ih]
    cases t <;> simp [step, List.count_cons, Function.iterate_succ_apply]

theorem run_receipts_eq (chain : PartialLightPeerChain) (sched : List DaemonTask) :
    ∀ s : RelayState, (run chain sched s).receipts =
      (queueStep (receiptsProvide chain))^[sched.count
        DaemonTask.handle_get_receipts_by_hash_requests] s.receipts := by
  induction sched with
  | nil => intro s; rfl
  | cons t ts ih =>
    intro s
    show (run chain ts (step chain s t)).receipts = _
    rw [ih]
    cases t <;> simp [step, List.count_cons, Function.iterate_succ_apply]

theorem run_account_eq (chain : PartialLightPeerChain) (sched : List DaemonTask) :
    ∀ s : RelayState, (run chain sched s).account =
      (queueStep (accountProvide chain))^[sched.count
        DaemonTask.handle_get_account_requests] s.account := by
  induction sched with
  | nil => intro s; rfl
  | cons t ts ih =>
    intro s
    show (run chain ts (step chain s t)).account = _
    rw [ih]
    cases t <;> simp [step, List.count_cons, Function.iterate_succ_apply]

theorem run_code_eq (chain : PartialLightPeerChain) (sched : List DaemonTask) :
    ∀ s : RelayState, (run chain sched s).code =
      (queueStep (codeProvide chain))^[sched.count
        DaemonTask.handle_get_contract_code_requests] s.code := by
  induction sched with
  | nil => intro s; rfl
  | cons t ts ih =>
    intro s
    show (run chain ts (step chain s t)).code = _
    rw [ih]
    cases t <;> simp [step, List.count_cons, Function.iterate_succ_apply]

theorem run_account_blocked (chain : PartialLightPeerChain)
    (hblocked : ∀ h a, chain.coro_get_account h a = none)
    (sched : List DaemonTask) (s : RelayState) :
    (run chain sched s).account = s.account := by
  rw [run_account_eq]
  exact Function.iterate_fixed
    (queueStep_of_blocked _ (fun r => by simp [accountProvide, hblocked]) _) _

theorem headerProvide_congr (chain chain' : PartialLightPeerChain)
    (h : chain.coro_get_block_header_by_hash =
      chain'.coro_get_block_header_by_hash) :
    headerProvide chain = headerProvide chain' := by
  funext p
  simp [headerProvide, h]

theorem bodyProvide_congr (chain chain' : PartialLightPeerChain)
    (h : chain.coro_get_block_body_by_hash = chain'.coro_get_block_body_by_hash) :
    bodyProvide chain = bodyProvide chain' := by
  funext p
  simp [bodyProvide, h]

theorem receiptsProvide_congr (chain chain' : PartialLightPeerChain)
    (h : chain.coro_get_receipts = chain'.coro_get_receipts) :
    receiptsProvide chain = receiptsProvide chain' := by
  funext p
  simp [receiptsProvide, h]

theorem accountProvide_congr (chain chain' : PartialLightPeerChain)
    (h : chain.coro_get_account = chain'.coro_get_account) :
    accountProvide chain = accountProvide chain' := by
  funext p
  simp [accountProvide, h]

theorem codeProvide_congr (chain chain' : PartialLightPeerChain)
    (h : chain.coro_get_contract_code = chain'.coro_get_contract_code) :
    codeProvide chain = codeProvide chain' := by
  funext p
  simp [codeProvide, h]

theorem headerProvide_isSome (chain : PartialLightPeerChain)
    (htotal : ∀ h, (chain.coro_get_block_header_by_hash h).isSome)
    (p : GetBlockHeaderByHashRequest × BroadcastConfig) :
    (headerProvide chain p).isSome := by
  simp [headerProvide]
  exact Option.isSome_iff_exists.mp (htotal p.1.block_hash) |>.elim
    fun r hr => by simp [hr]

end RelaySched

theorem roundTripHeader_eq (chain : LightPeerChain) (h : Hash32) :
    roundTripHeader chain h = (chain.coro_get_block_header_by_hash h).map some := by
  cases hv : chain.coro_get_block_header_by_hash h <;>
    simp [roundTripHeader, EventBusLightPeerChain.coro_get_block_header_by_hash,
      relayBus, EventBusLightPeerChain._pass_or_raise, instRespClassHeader,
      LightPeerChainEventBusHandler.header_response, await_and_wrap_errors, Except.map, hv]

theorem roundTripBody_eq (chain : LightPeerChain) (h : Hash32) :
    roundTripBody chain h = (chain.coro_get_block_body_by_hash h).map some := by
  cases hv : chain.coro_get_block_body_by_hash h <;>
    simp [roundTripBody, EventBusLightPeerChain.coro_get_block_body_by_hash,
      relayBus, EventBusLightPeerChain._pass_or_raise, instRespClassBody,
      LightPeerChainEventBusHandler.body_response, await_and_wrap_errors, Except.map, hv]

theorem roundTripReceipts_eq (chain : LightPeerChain) (h : Hash32) :
    roundTripReceipts chain h = (chain.coro_get_receipts h).map some := by
  cases hv : chain.coro_get_receipts h <;>
    simp [roundTripReceipts, EventBusLightPeerChain.coro_get_receipts,
      relayBus, EventBusLightPeerChain._pass_or_raise, instRespClassReceipts,
      LightPeerChainEventBusHandler.receipts_response, await_and_wrap_errors, Except.map, hv]

theorem roundTripAccount_eq (chain : LightPeerChain) (h : Hash32) (a : Address) :
    roundTripAccount chain h a = (chain.coro_get_account h a).map some := by
  cases hv : chain.coro_get_account h a <;>
    simp [roundTripAccount, EventBusLightPeerChain.coro_get_account,
      relayBus, EventBusLightPeerChain._pass_or_raise, instRespClassAccount,
      LightPeerChainEventBusHandler.account_response, await_and_wrap_errors, Except.map, hv]

theorem roundTripContractCode_eq (chain : LightPeerChain) (h : Hash32) (a : Address) :
    roundTripContractCode chain h a = (chain.coro_get_contract_code h a).map some := by
  cases hv : chain.coro_get_contract_code h a <;>
    simp [roundTripContractCode, EventBusLightPeerChain.coro_get_contract_code,
      relayBus, EventBusLightPeerChain._pass_or_raise, instRespClassBytes,
      LightPeerChainEventBusHandler.bytes_response, await_and_wrap_errors, Except.map, hv]

/-! ## Claim theorems -/

/-- C1: For every query kind, a successful provider result round-trips
unchanged: when the provider operation returns `v` for the request's input
fields, the relay publishes a response with payload `v` and error unset, and
the facade call returns exactly that payload (extracted because the
response's error field is not set). -/
theorem spec_c1_success_roundtrip :
    (∀ (chain : LightPeerChain) (h : Hash32) (v : BlockHeader),
      chain.coro_get_block_header_by_hash h = Except.ok v →
        LightPeerChainEventBusHandler.header_response chain ⟨h⟩ =
          { block_header := some v, error := none } ∧
        roundTripHeader chain h = Except.ok (some v)) ∧
    (∀ (chain : LightPeerChain) (h : Hash32) (v : BlockBody),
      chain.coro_get_block_body_by_hash h = Except.ok v →
        LightPeerChainEventBusHandler.body_response chain ⟨h⟩ =
          { block_body := some v, error := none } ∧
        roundTripBody chain h = Except.ok (some v)) ∧
    (∀ (chain : LightPeerChain) (h : Hash32) (v : List Receipt),
      chain.coro_get_receipts h = Except.ok v →
        LightPeerChainEventBusHandler.receipts_response chain ⟨h⟩ =
          { receipts := some v, error := none } ∧
        roundTripReceipts chain h = Except.ok (some v)) ∧
    (∀ (chain : LightPeerChain) (h : Hash32) (a : Address) (v : Account),
      chain.coro_get_account h a = Except.ok v →
        LightPeerChainEventBusHandler.account_response chain ⟨h, a⟩ =
          { account := some v, error := none } ∧
        roundTripAccount chain h a = Except.ok (some v)) ∧
    (∀ (chain : LightPeerChain) (h : Hash32) (a : Address) (v : Bytez),
      chain.coro_get_contract_code h a = Except.ok v →
        LightPeerChainEventBusHandler.bytes_response chain ⟨h, a⟩ =
          { bytez := some v, error := none } ∧
        roundTripContractCode chain h a = Except.ok (some v)) := by
  refine ⟨?_, ?_, ?_, ?_, ?_⟩
  · intro chain h v hv
    exact ⟨by simp [LightPeerChainEventBusHandler.header_response,
        await_and_wrap_errors, hv],
      by rw [roundTripHeader_eq, hv]; rfl⟩
  · intro chain h v hv
    exact ⟨by simp [LightPeerChainEventBusHandler.body_response,
        await_and_wrap_errors, hv],
      by rw [roundTripBody_eq, hv]; rfl⟩
  · intro chain h v hv
    exact ⟨by simp [LightPeerChainEventBusHandler.receipts_response,
        await_and_wrap_errors, hv],
      by rw [roundTripReceipts_eq, hv]; rfl⟩
  · intro chain h a v hv
    exact ⟨by simp [LightPeerChainEventBusHandler.account_response,
        await_and_wrap_errors, hv],
      by rw [roundTripAccount_eq, hv]; rfl⟩
  · intro chain h a v hv
    exact ⟨by simp [LightPeerChainEventBusHandler.bytes_response,
        await_and_wrap_errors, hv],
      by rw [roundTripContractCode_eq, hv]; rfl⟩

/-- C1 witness: concrete successful round trips through `sampleChain` for all
five query kinds. -/
theorem spec_c1_success_roundtrip_witness :
    roundTripHeader sampleChain ⟨5⟩ = Except.ok (some ⟨6⟩) ∧
    roundTripBody sampleChain ⟨5⟩ = Except.ok (some ⟨7⟩) ∧
    roundTripReceipts sampleChain ⟨5⟩ = Except.ok (some [⟨8⟩]) ∧
    roundTripAccount sampleChain ⟨5⟩ ⟨9⟩ = Except.ok (some ⟨14⟩) ∧
    roundTripContractCode sampleChain ⟨5⟩ ⟨9⟩ = Except.ok (some [5, 9]) :=
  ⟨(spec_c1_success_roundtrip.1 sampleChain ⟨5⟩ ⟨6⟩ rfl).2,
   (spec_c1_success_roundtrip.2.1 sampleChain ⟨5⟩ ⟨7⟩ rfl).2,
   (spec_c1_success_roundtrip.2.2.1 sampleChain ⟨5⟩ [⟨8⟩] rfl).2,
   (spec_c1_success_roundtrip.2.2.2.1 sampleChain ⟨5⟩ ⟨9⟩ ⟨14⟩ rfl).2,
   (spec_c1_success_roundtrip.2.2.2.2 sampleChain ⟨5⟩ ⟨9⟩ [5, 9] rfl).2⟩

/-- C2: For every query kind, a provider failure round-trips as a failure:
when the provider raises `e`, the relay publishes a response whose error
field is the captured failure and whose payload is left unset, and the facade
call raises that same failure to its caller rather than returning a value. -/
theorem spec_c2_failure_roundtrip :
    (∀ (chain : LightPeerChain) (h : Hash32) (e : Exn),
      chain.coro_get_block_header_by_hash h = Except.error e →
        LightPeerChainEventBusHandler.header_response chain ⟨h⟩ =
          { block_header := none, error := some e } ∧
        roundTripHeader chain h = Except.error e) ∧
    (∀ (chain : LightPeerChain) (h : Hash32) (e : Exn),
      chain.coro_get_block_body_by_hash h = Except.error e →
        LightPeerChainEventBusHandler.body_response chain ⟨h⟩ =
          { block_body := none, error := some e } ∧
        roundTripBody chain h = Except.error e) ∧
    (∀ (chain : LightPeerChain) (h : Hash32) (e : Exn),
      chain.coro_get_receipts h = Except.error e →
        LightPeerChainEventBusHandler.receipts_response chain ⟨h⟩ =
          { receipts := none, error := some e } ∧
        roundTripReceipts chain h = Except.error e) ∧
    (∀ (chain : LightPeerChain) (h : Hash32) (a : Address) (e : Exn),
      chain.coro_get_account h a = Except.error e →
        LightPeerChainEventBusHandler.account_response chain ⟨h, a⟩ =
          { account := none, error := some e } ∧
        roundTripAccount chain h a = Except.error e) ∧
    (∀ (chain : LightPeerChain) (h : Hash32) (a : Address) (e : Exn),
      chain.coro_get_contract_code h a = Except.error e →
        LightPeerChainEventBusHandler.bytes_response chain ⟨h, a⟩ =
          { bytez := none, error := some e } ∧
        roundTripContractCode chain h a = Except.error e) := by
  refine ⟨?_, ?_, ?_, ?_, ?_⟩
  · intro chain h e he
    exact ⟨by simp [LightPeerChainEventBusHandler.header_response,
        await_and_wrap_errors, he],
      by rw [roundTripHeader_eq, he]; rfl⟩
  · intro chain h e he
    exact ⟨by simp [LightPeerChainEventBusHandler.body_response,
        await_and_wrap_errors, he],
      by rw [roundTripBody_eq, he]; rfl⟩
  · intro chain h e he
    exact ⟨by simp [LightPeerChainEventBusHandler.receipts_response,
        await_and_wrap_errors, he],
      by rw [roundTripReceipts_eq, he]; rfl⟩
  · intro chain h a e he
    exact ⟨by simp [LightPeerChainEventBusHandler.account_response,
        await_and_wrap_errors, he],
      by rw [roundTripAccount_eq, he]; rfl⟩
  · intro chain h a e he
    exact ⟨by simp [LightPeerChainEventBusHandler.bytes_response,
        await_and_wrap_errors, he],
      by rw [roundTripContractCode_eq, he]; rfl⟩

/-- C2 witness: concrete failing round trips through `failChain` for all five
query kinds, each raising the provider's exception. -/
theorem spec_c2_failure_roundtrip_witness :
    roundTripHeader (failChain ⟨"not found"⟩) ⟨5⟩ =
      Except.error ⟨"not found"⟩ ∧
    roundTripBody (failChain ⟨"not found"⟩) ⟨5⟩ =
      Except.error ⟨"not found"⟩ ∧
    roundTripReceipts (failChain ⟨"not found"⟩) ⟨5⟩ =
      Except.error ⟨"not found"⟩ ∧
    roundTripAccount (failChain ⟨"not found"⟩) ⟨5⟩ ⟨9⟩ =
      Except.error ⟨"not found"⟩ ∧
    roundTripContractCode (failChain ⟨"not found"⟩) ⟨5⟩ ⟨9⟩ =
      Except.error ⟨"not found"⟩ :=
  ⟨(spec_c2_failure_roundtrip.1 (failChain ⟨"not found"⟩) ⟨5⟩ ⟨"not found"⟩ rfl).2,
   (spec_c2_failure_roundtrip.2.1 (failChain ⟨"not found"⟩) ⟨5⟩ ⟨"not found"⟩ rfl).2,
   (spec_c2_failure_roundtrip.2.2.1 (failChain ⟨"not found"⟩) ⟨5⟩ ⟨"not found"⟩ rfl).2,
   (spec_c2_failure_roundtrip.2.2.2.1 (failChain ⟨"not found"⟩) ⟨5⟩ ⟨9⟩ ⟨"not found"⟩ rfl).2,
   (spec_c2_failure_roundtrip.2.2.2.2 (failChain ⟨"not found"⟩) ⟨5⟩ ⟨9⟩ ⟨"not found"⟩ rfl).2⟩

/-- C3: For every query kind's relay loop and every received request, a
provider failure is captured as data rather than propagated: a response is
published for every request (the output has one response per input, for every
provider, including failing ones), and when the provider raises `e` on the
first request the loop publishes the error-carrying response and continues
consuming the remaining requests. -/
theorem spec_c3_loop_never_dies :
    ∀ chain : LightPeerChain,
    ((∀ events, (LightPeerChainEventBusHandler.handle_get_blockheader_by_hash_requests
        chain events).length = events.length) ∧
     (∀ event cfg rest e,
        chain.coro_get_block_header_by_hash event.block_hash = Except.error e →
        LightPeerChainEventBusHandler.handle_get_blockheader_by_hash_requests
            chain ((event, cfg) :: rest) =
          (AnyResponse.blockHeader { block_header := none, error := some e }, cfg) ::
            LightPeerChainEventBusHandler.handle_get_blockheader_by_hash_requests
              chain rest)) ∧
    ((∀ events, (LightPeerChainEventBusHandler.handle_get_blockbody_by_hash_requests
        chain events).length = events.length) ∧
     (∀ event cfg rest e,
        chain.coro_get_block_body_by_hash event.block_hash = Except.error e →
        LightPeerChainEventBusHandler.handle_get_blockbody_by_hash_requests
            chain ((event, cfg) :: rest) =
          (AnyResponse.blockBody { block_body := none, error := some e }, cfg) ::
            LightPeerChainEventBusHandler.handle_get_blockbody_by_hash_requests
              chain rest)) ∧
    ((∀ events, (LightPeerChainEventBusHandler.handle_get_receipts_by_hash_requests
        chain events).length = events.length) ∧
     (∀ event cfg rest e,
        chain.coro_get_receipts event.block_hash = Except.error e →
        LightPeerChainEventBusHandler.handle_get_receipts_by_hash_requests
            chain ((event, cfg) :: rest) =
          (AnyResponse.receipts { receipts := none, error := some e }, cfg) ::
            LightPeerChainEventBusHandler.handle_get_receipts_by_hash_requests
              chain rest)) ∧
    ((∀ events, (LightPeerChainEventBusHandler.handle_get_account_requests
        chain events).length = events.length) ∧
     (∀ event cfg rest e,
        chain.coro_get_account event.block_hash event.address = Except.error e →
        LightPeerChainEventBusHandler.handle_get_account_requests
            chain ((event, cfg) :: rest) =
          (AnyResponse.account { account := none, error := some e }, cfg) ::
            LightPeerChainEventBusHandler.handle_get_account_requests
              chain rest)) ∧
    ((∀ events, (LightPeerChainEventBusHandler.handle_get_contract_code_requests
        chain events).length = events.length) ∧
     (∀ event cfg rest e,
        chain.coro_get_contract_code event.block_hash event.address = Except.error e →
        LightPeerChainEventBusHandler.handle_get_contract_code_requests
            chain ((event, cfg) :: rest) =
          (AnyResponse.bytes { bytez := none, error := some e }, cfg) ::
            LightPeerChainEventBusHandler.handle_get_contract_code_requests
              chain rest)) := by
  intro chain
  refine ⟨⟨?_, ?_⟩, ⟨?_, ?_⟩, ⟨?_, ?_⟩, ⟨?_, ?_⟩, ⟨?_, ?_⟩⟩
  · intro events
    simp [LightPeerChainEventBusHandler.handle_get_blockheader_by_hash_requests]
  · intro event cfg rest e he
    simp [LightPeerChainEventBusHandler.handle_get_blockheader_by_hash_requests,
      LightPeerChainEventBusHandler.handle_get_blockheader_by_hash_one,
      LightPeerChainEventBusHandler.header_response, await_and_wrap_errors, he]
  · intro events
    simp [LightPeerChainEventBusHandler.handle_get_blockbody_by_hash_requests]
  · intro event cfg rest e he
    simp [LightPeerChainEventBusHandler.handle_get_blockbody_by_hash_requests,
      LightPeerChainEventBusHandler.handle_get_blockbody_by_hash_one,
      LightPeerChainEventBusHandler.body_response, await_and_wrap_errors, he]
  · intro events
    simp [LightPeerChainEventBusHandler.handle_get_receipts_by_hash_requests]
  · intro event cfg rest e he
    simp [LightPeerChainEventBusHandler.handle_get_receipts_by_hash_requests,
      LightPeerChainEventBusHandler.handle_get_receipts_by_hash_one,
      LightPeerChainEventBusHandler.receipts_response, await_and_wrap_errors, he]
  · intro events
    simp [LightPeerChainEventBusHandler.handle_get_account_requests]
  · intro event cfg rest e he
    simp [LightPeerChainEventBusHandler.handle_get_account_requests,
      LightPeerChainEventBusHandler.handle_get_account_one,
      LightPeerChainEventBusHandler.account_response, await_and_wrap_errors, he]
  · intro events
    simp [LightPeerChainEventBusHandler.handle_get_contract_code_requests]
  · intro event cfg rest e he
    simp [LightPeerChainEventBusHandler.handle_get_contract_code_requests,
      LightPeerChainEventBusHandler.handle_get_contract_code_one,
      LightPeerChainEventBusHandler.bytes_response, await_and_wrap_errors, he]

/-- C3 witness: the account loop of an always-failing provider publishes an
error response for the failing first request and still answers the second
request. -/
theorem spec_c3_loop_never_dies_witness :
    LightPeerChainEventBusHandler.handle_get_account_requests
        (failChain ⟨"boom"⟩) [(⟨⟨1⟩, ⟨2⟩⟩, ⟨3⟩), (⟨⟨4⟩, ⟨5⟩⟩, ⟨6⟩)] =
      (AnyResponse.account { account := none, error := some ⟨"boom"⟩ }, ⟨3⟩) ::
        LightPeerChainEventBusHandler.handle_get_account_requests
          (failChain ⟨"boom"⟩) [(⟨⟨4⟩, ⟨5⟩⟩, ⟨6⟩)] :=
  ((spec_c3_loop_never_dies (failChain ⟨"boom"⟩)).2.2.2.1).2
    ⟨⟨1⟩, ⟨2⟩⟩ ⟨3⟩ [(⟨⟨4⟩, ⟨5⟩⟩, ⟨6⟩)] ⟨"boom"⟩ rfl

/-- C4: For each of the five query kinds, `expected_response_type` is a pure
function constant across all instances of the request type, and the five
static bindings are exactly the specified ones and pairwise distinct (the
request-type to response-type binding is total and one-to-one). -/
theorem spec_c4_static_binding :
    (∀ r r' : GetBlockHeaderByHashRequest,
      r.expected_response_type = r'.expected_response_type) ∧
    (∀ r r' : GetBlockBodyByHashRequest,
      r.expected_response_type = r'.expected_response_type) ∧
    (∀ r r' : GetReceiptsRequest,
      r.expected_response_type = r'.expected_response_type) ∧
    (∀ r r' : GetAccountRequest,
      r.expected_response_type = r'.expected_response_type) ∧
    (∀ r r' : GetContractCodeRequest,
      r.expected_response_type = r'.expected_response_type) ∧
    (∀ r : GetBlockHeaderByHashRequest,
      r.expected_response_type = ResponseType.blockHeaderResponse) ∧
    (∀ r : GetBlockBodyByHashRequest,
      r.expected_response_type = ResponseType.blockBodyResponse) ∧
    (∀ r : GetReceiptsRequest,
      r.expected_response_type = ResponseType.receiptsResponse) ∧
    (∀ r : GetAccountRequest,
      r.expected_response_type = ResponseType.accountResponse) ∧
    (∀ r : GetContractCodeRequest,
      r.expected_response_type = ResponseType.bytesResponse) ∧
    Function.Injective QueryKind.boundResponseType := by
  refine ⟨fun _ _ => rfl, fun _ _ => rfl, fun _ _ => rfl, fun _ _ => rfl,
    fun _ _ => rfl, fun _ => rfl, fun _ => rfl, fun _ => rfl, fun _ => rfl,
    fun _ => rfl, ?_⟩
  intro a b hab
  cases a <;> cases b <;> first | rfl | exact absurd hab (by decide)

/-- C5: Every response a relay loop publishes is an instance of exactly the
response type statically bound to the query kind that produced it, for every
provider, every delivered request list and every published response. -/
theorem spec_c5_published_response_type :
    ∀ chain : LightPeerChain,
    (∀ events r,
      r ∈ LightPeerChainEventBusHandler.handle_get_blockheader_by_hash_requests
          chain events →
        r.1.typeTag = QueryKind.getBlockHeaderByHash.boundResponseType) ∧
    (∀ events r,
      r ∈ LightPeerChainEventBusHandler.handle_get_blockbody_by_hash_requests
          chain events →
        r.1.typeTag = QueryKind.getBlockBodyByHash.boundResponseType) ∧
    (∀ events r,
      r ∈ LightPeerChainEventBusHandler.handle_get_receipts_by_hash_requests
          chain events →
        r.1.typeTag = QueryKind.getReceipts.boundResponseType) ∧
    (∀ events r,
      r ∈ LightPeerChainEventBusHandler.handle_get_account_requests
          chain events →
        r.1.typeTag = QueryKind.getAccount.boundResponseType) ∧
    (∀ events r,
      r ∈ LightPeerChainEventBusHandler.handle_get_contract_code_requests
          chain events →
        r.1.typeTag = QueryKind.getContractCode.boundResponseType) := by
  intro chain
  refine ⟨?_, ?_, ?_, ?_, ?_⟩
  · intro events r hr
    simp [LightPeerChainEventBusHandler.handle_get_blockheader_by_hash_requests,
      List.mem_map] at hr
    obtain ⟨e, cfg, _, rfl⟩ := hr
    rfl
  · intro events r hr
    simp [LightPeerChainEventBusHandler.handle_get_blockbody_by_hash_requests,
      List.mem_map] at hr
    obtain ⟨e, cfg, _, rfl⟩ := hr
    rfl
  · intro events r hr
    simp [LightPeerChainEventBusHandler.handle_get_receipts_by_hash_requests,
      List.mem_map] at hr
    obtain ⟨e, cfg, _, rfl⟩ := hr
    rfl
  · intro events r hr
    simp [LightPeerChainEventBusHandler.handle_get_account_requests,
      List.mem_map] at hr
    obtain ⟨e, cfg, _, rfl⟩ := hr
    rfl
  · intro events r hr
    simp [LightPeerChainEventBusHandler.handle_get_contract_code_requests,
      List.mem_map] at hr
    obtain ⟨e, cfg, _, rfl⟩ := hr
    rfl

/-- C5 witness: the response the header loop publishes for one concrete
request is an instance of `BlockHeaderResponse`. -/
theorem spec_c5_published_response_type_witness :
    (AnyResponse.blockHeader
        (LightPeerChainEventBusHandler.header_response sampleChain ⟨⟨1⟩⟩),
      (⟨2⟩ : BroadcastConfig)).1.typeTag =
      QueryKind.getBlockHeaderByHash.boundResponseType :=
  (spec_c5_published_response_type sampleChain).1 [(⟨⟨1⟩⟩, ⟨2⟩)]
    (AnyResponse.blockHeader
        (LightPeerChainEventBusHandler.header_response sampleChain ⟨⟨1⟩⟩), ⟨2⟩)
    (by simp [LightPeerChainEventBusHandler.handle_get_blockheader_by_hash_requests,
      LightPeerChainEventBusHandler.handle_get_blockheader_by_hash_one])

/-- C6: The relay answers every request addressed with exactly the addressing
token carried by that request, for success and failure alike (the token is
forwarded for every provider), and it never inspects the token: the response
it publishes does not depend on the token's contents. -/
theorem spec_c6_addressing_token :
    ∀ (chain : LightPeerChain),
    (∀ event cfg cfg',
      (LightPeerChainEventBusHandler.handle_get_blockheader_by_hash_one
          chain event cfg).2 = cfg ∧
      (LightPeerChainEventBusHandler.handle_get_blockheader_by_hash_one
          chain event cfg).1 =
        (LightPeerChainEventBusHandler.handle_get_blockheader_by_hash_one
          chain event cfg').1) ∧
    (∀ event cfg cfg',
      (LightPeerChainEventBusHandler.handle_get_blockbody_by_hash_one
          chain event cfg).2 = cfg ∧
      (LightPeerChainEventBusHandler.handle_get_blockbody_by_hash_one
          chain event cfg).1 =
        (LightPeerChainEventBusHandler.handle_get_blockbody_by_hash_one
          chain event cfg').1) ∧
    (∀ event cfg cfg',
      (LightPeerChainEventBusHandler.handle_get_receipts_by_hash_one
          chain event cfg).2 = cfg ∧
      (LightPeerChainEventBusHandler.handle_get_receipts_by_hash_one
          chain event cfg).1 =
        (LightPeerChainEventBusHandler.handle_get_receipts_by_hash_one
          chain event cfg').1) ∧
    (∀ event cfg cfg',
      (LightPeerChainEventBusHandler.handle_get_account_one
          chain event cfg).2 = cfg ∧
      (LightPeerChainEventBusHandler.handle_get_account_one
          chain event cfg).1 =
        (LightPeerChainEventBusHandler.handle_get_account_one
          chain event cfg').1) ∧
    (∀ event cfg cfg',
      (LightPeerChainEventBusHandler.handle_get_contract_code_one
          chain event cfg).2 = cfg ∧
      (LightPeerChainEventBusHandler.handle_get_contract_code_one
          chain event cfg).1 =
        (LightPeerChainEventBusHandler.handle_get_contract_code_one
          chain event cfg').1) :=
  fun _ => ⟨fun _ _ _ => ⟨rfl, rfl⟩, fun _ _ _ => ⟨rfl, rfl⟩,
    fun _ _ _ => ⟨rfl, rfl⟩, fun _ _ _ => ⟨rfl, rfl⟩, fun _ _ _ => ⟨rfl, rfl⟩⟩

/-- C7: Starting the relay starts exactly one long-running
consume-dispatch-respond task per query kind — five tasks, one for each
kind — and stopping the relay stops all of them. -/
theorem spec_c7_one_task_per_kind :
    LightPeerChainEventBusHandler.runTasks.length = 5 ∧
    (∀ k : QueryKind,
      (LightPeerChainEventBusHandler.runTasks.countP
        (fun t => t.kind == k)) = 1) ∧
    LightPeerChainEventBusHandler.runningTasksAfter
      LightPeerChainEventBusHandler.runTasks true = [] :=
  ⟨rfl, by decide, rfl⟩

/-- C8: Every facade call constructs the bound request value from its
arguments and issues exactly one correlated request, targeted at the fixed
shared address configuration, for every query kind and independently of the
bus's responses (no retries, no caching, no batching). -/
theorem spec_c8_exactly_one_request :
    ∀ (bus : EventBusRequestPrimitive),
    (∀ h, (EventBusLightPeerChain.coro_get_block_header_by_hash bus h).2 =
      [SentRequest.header ⟨h⟩ TO_NETWORKING_BROADCAST_CONFIG]) ∧
    (∀ h, (EventBusLightPeerChain.coro_get_block_body_by_hash bus h).2 =
      [SentRequest.body ⟨h⟩ TO_NETWORKING_BROADCAST_CONFIG]) ∧
    (∀ h, (EventBusLightPeerChain.coro_get_receipts bus h).2 =
      [SentRequest.receipts ⟨h⟩ TO_NETWORKING_BROADCAST_CONFIG]) ∧
    (∀ h a, (EventBusLightPeerChain.coro_get_account bus h a).2 =
      [SentRequest.account ⟨h, a⟩ TO_NETWORKING_BROADCAST_CONFIG]) ∧
    (∀ h a, (EventBusLightPeerChain.coro_get_contract_code bus h a).2 =
      [SentRequest.contractCode ⟨h, a⟩ TO_NETWORKING_BROADCAST_CONFIG]) :=
  fun _ => ⟨fun _ => rfl, fun _ => rfl, fun _ => rfl,
    fun _ _ => rfl, fun _ _ => rfl⟩

/-- C9: Each query kind's relay loop is an independently scheduled task:
the outcome of one kind's loop depends only on that kind's provider
operation and that kind's scheduled steps (first five conjuncts), and in
particular when the `GetAccount` provider operation never resolves, header
requests still all complete under any schedule with enough header steps
while the account task makes no progress (last conjunct). -/
theorem spec_c9_kind_independence :
    (∀ (chain chain' : PartialLightPeerChain) (sched : List DaemonTask)
        (s : RelaySched.RelayState),
      chain.coro_get_block_header_by_hash =
          chain'.coro_get_block_header_by_hash →
        (RelaySched.run chain sched s).header =
          (RelaySched.run chain' sched s).header) ∧
    (∀ (chain chain' : PartialLightPeerChain) (sched : List DaemonTask)
        (s : RelaySched.RelayState),
      chain.coro_get_block_body_by_hash = chain'.coro_get_block_body_by_hash →
        (RelaySched.run chain sched s).body =
          (RelaySched.run chain' sched s).body) ∧
    (∀ (chain chain' : PartialLightPeerChain) (sched : List DaemonTask)
        (s : RelaySched.RelayState),
      chain.coro_get_receipts = chain'.coro_get_receipts →
        (RelaySched.run chain sched s).receipts =
          (RelaySched.run chain' sched s).receipts) ∧
    (∀ (chain chain' : PartialLightPeerChain) (sched : List DaemonTask)
        (s : RelaySched.RelayState),
      chain.coro_get_account = chain'.coro_get_account →
        (RelaySched.run chain sched s).account =
          (RelaySched.run chain' sched s).account) ∧
    (∀ (chain chain' : PartialLightPeerChain) (sched : List DaemonTask)
        (s : RelaySched.RelayState),
      chain.coro_get_contract_code = chain'.coro_get_contract_code →
        (RelaySched.run chain sched s).code =
          (RelaySched.run chain' sched s).code) ∧
    (∀ (chain : PartialLightPeerChain) (sched : List DaemonTask)
        (s : RelaySched.RelayState),
      (∀ h a, chain.coro_get_account h a = none) →
      (∀ h, (chain.coro_get_block_header_by_hash h).isSome) →
      s.header.pending.length ≤
        sched.count DaemonTask.handle_get_blockheader_by_hash_requests →
        ((RelaySched.run chain sched s).header.pending = [] ∧
         (RelaySched.run chain sched s).header.done.length =
           s.header.done.length + s.header.pending.length ∧
         (RelaySched.run chain sched s).account = s.account)) := by
  refine ⟨?_, ?_, ?_, ?_, ?_, ?_⟩
  · intro chain chain' sched s hagree
    rw [RelaySched.run_header_eq, RelaySched.run_header_eq,
      RelaySched.headerProvide_congr chain chain' hagree]
  · intro chain chain' sched s hagree
    rw [RelaySched.run_body_eq, RelaySched.run_body_eq,
      RelaySched.bodyProvide_congr chain chain' hagree]
  · intro chain chain' sched s hagree
    rw [RelaySched.run_receipts_eq, RelaySched.run_receipts_eq,
      RelaySched.receiptsProvide_congr chain chain' hagree]
  · intro chain chain' sched s hagree
    rw [RelaySched.run_account_eq, RelaySched.run_account_eq,
      RelaySched.accountProvide_congr chain chain' hagree]
  · intro chain chain' sched s hagree
    rw [RelaySched.run_code_eq, RelaySched.run_code_eq,
      RelaySched.codeProvide_congr chain chain' hagree]
  · intro chain sched s hblocked htotal hcount
    have hcomplete := RelaySched.queueStep_iterate_complete
      (RelaySched.headerProvide chain)
      (RelaySched.headerProvide_isSome chain htotal)
      (sched.count DaemonTask.handle_get_blockheader_by_hash_requests)
      s.header hcount
    refine ⟨?_, ?_, RelaySched.run_account_blocked chain hblocked sched s⟩
    · rw [RelaySched.run_header_eq]
      exact hcomplete.1
    · rw [RelaySched.run_header_eq]
      exact hcomplete.2

/-- C9 witness: with the account provider never resolving, a schedule that
steps the account task and then the header task completes the pending header
request while the account task's state is unchanged; and the header task's
outcome is the same as under a fully resolving provider agreeing on the
header operation. -/
theorem spec_c9_kind_independence_witness :
    ((RelaySched.run accountBlockedChain
        [DaemonTask.handle_get_account_requests,
         DaemonTask.handle_get_blockheader_by_hash_requests]
        sampleRelayState).header.pending = [] ∧
     (RelaySched.run accountBlockedChain
        [DaemonTask.handle_get_account_requests,
         DaemonTask.handle_get_blockheader_by_hash_requests]
        sampleRelayState).header.done.length =
       sampleRelayState.header.done.length +
         sampleRelayState.header.pending.length ∧
     (RelaySched.run accountBlockedChain
        [DaemonTask.handle_get_account_requests,
         DaemonTask.handle_get_blockheader_by_hash_requests]
        sampleRelayState).account = sampleRelayState.account) ∧
    (RelaySched.run accountBlockedChain
        [DaemonTask.handle_get_account_requests,
         DaemonTask.handle_get_blockheader_by_hash_requests]
        sampleRelayState).header =
      (RelaySched.run allResolvingChain
        [DaemonTask.handle_get_account_requests,
         DaemonTask.handle_get_blockheader_by_hash_requests]
        sampleRelayState).header :=
  ⟨spec_c9_kind_independence.2.2.2.2.2 accountBlockedChain
      [DaemonTask.handle_get_account_requests,
       DaemonTask.handle_get_blockheader_by_hash_requests]
      sampleRelayState (fun _ _ => rfl) (fun _ => rfl) (by decide),
   spec_c9_kind_independence.1 accountBlockedChain allResolvingChain
      [DaemonTask.handle_get_account_requests,
       DaemonTask.handle_get_blockheader_by_hash_requests]
      sampleRelayState rfl⟩

/-- C10: A correlated response whose error field is `None` and whose payload
is also `None` is treated as success: `_pass_or_raise` only tests the error
field, so the facade call returns the `None` payload to its caller instead of
raising. -/
theorem spec_c10_empty_response_success :
    ∀ (bus : EventBusRequestPrimitive) (h : Hash32),
      (∀ e cfg, bus.header e cfg = { block_header := none, error := none }) →
      EventBusLightPeerChain._pass_or_raise
          (bus.header ⟨h⟩ TO_NETWORKING_BROADCAST_CONFIG) =
        Except.ok { block_header := none, error := none } ∧
      (EventBusLightPeerChain.coro_get_block_header_by_hash bus h).1 =
        Except.ok none := by
  intro bus h hbus
  constructor
  · rw [hbus]
    rfl
  · simp [EventBusLightPeerChain.coro_get_block_header_by_hash,
      EventBusLightPeerChain._pass_or_raise, instRespClassHeader,
      Except.map, hbus]

/-- C10 witness: against a bus answering with an all-`None` response, the
facade returns success carrying no payload. -/
theorem spec_c10_empty_response_success_witness :
    (EventBusLightPeerChain.coro_get_block_header_by_hash
        emptyResponseBus ⟨1⟩).1 = Except.ok none :=
  (spec_c10_empty_response_success emptyResponseBus ⟨1⟩ (fun _ _ => rfl)).2
